import Mathlib

/-!
Verification of the longshot espresso-machine driver core against its
specification. The definitions below are a shallow embedding of the Rust
source: bytes are `Nat` values below 256, 16-bit machine arithmetic is
`Nat` arithmetic taken modulo 2^16 exactly where the `u16` operations
truncate, byte vectors are `List Nat`, and code that can panic at runtime
is embedded as an `Option`-returning function where `none` marks the
panicking inputs.
-/

/-- One step of the 16-bit rolling checksum from `protocol/packet.rs`
(`checksum`): state `i : u16`, input byte `x`. The `u16` left shifts
truncate modulo 2^16; `|||`, `^^^`, `&&&` are the bitwise ops. -/
def checksum_step (i x : Nat) : Nat :=
  let i3 := (((i <<< 8) % 65536) ||| (i >>> 8)) ^^^ x
  let i4 := i3 ^^^ ((i3 &&& 255) >>> 4)
  let i5 := i4 ^^^ ((i4 <<< 12) % 65536)
  i5 ^^^ ((i5 &&& 255) <<< 5)

/-- `checksum` from `protocol/packet.rs`: fold `checksum_step` over the
buffer starting from 7439, then emit the two bytes big-endian
(`[(i >> 8) as u8, (i & 0xff) as u8]`). -/
def checksum (buffer : List Nat) : List Nat :=
  let i := buffer.foldl checksum_step 7439
  [i >>> 8, i &&& 0xff]

/-- `packetize` from `protocol/packet.rs`. The length byte is
`buffer.len() + 3`; the `try_into().expect("Packet too large")` panics
when that value does not fit in a `u8`, which the embedding marks as
`none`. The checksum is computed over the preamble, length byte and body. -/
def packetize (buffer : List Nat) : Option (List Nat) :=
  if buffer.length + 3 ≤ 255 then
    let out := [0x0d, buffer.length + 3] ++ buffer
    some (out ++ checksum out)
  else
    none

/-- The spec's formulation of the checksum update (§4.A), written from the
spec's four-line algorithm over state `i` with all arithmetic modulo 2^16,
for comparison with the source-derived `checksum_step`. -/
def checksum_spec_step (i x : Nat) : Nat :=
  let a := (((i <<< 8) % 65536) ||| ((i >>> 8) % 65536)) ^^^ x
  let b := a ^^^ ((a &&& 0xff) >>> 4)
  let c := b ^^^ ((b <<< 12) % 65536)
  c ^^^ ((c &&& 0xff) <<< 5)

/-- The spec's checksum (§4.A): run the rolling transform from initial
state 7439 over all bytes and emit `(i >> 8, i & 0xFF)` big-endian. -/
def checksum_spec (buffer : List Nat) : List Nat :=
  let i := buffer.foldl checksum_spec_step 7439
  [i >>> 8, i &&& 0xff]

lemma shiftRight_le_self (a k : Nat) : a >>> k ≤ a := by
  rw [Nat.shiftRight_eq_div_pow]
  exact Nat.div_le_self _ _

lemma csum_b1 (i x : Nat) (hi : i < 2 ^ 16) (hx : x < 2 ^ 16) :
    (((i <<< 8) % 65536) ||| (i >>> 8)) ^^^ x < 2 ^ 16 :=
  Nat.xor_lt_two_pow
    (Nat.or_lt_two_pow (by omega) (lt_of_le_of_lt (shiftRight_le_self i 8) hi)) hx

lemma csum_b2 (a : Nat) (ha : a < 2 ^ 16) : a ^^^ ((a &&& 255) >>> 4) < 2 ^ 16 := by
  have h1 : a &&& 255 ≤ 255 := Nat.and_le_right
  have h2 : (a &&& 255) >>> 4 ≤ a &&& 255 := shiftRight_le_self _ 4
  exact Nat.xor_lt_two_pow ha (by omega)

lemma csum_b3 (a : Nat) (ha : a < 2 ^ 16) : a ^^^ ((a <<< 12) % 65536) < 2 ^ 16 :=
  Nat.xor_lt_two_pow ha (by omega)

lemma csum_b4 (a : Nat) (ha : a < 2 ^ 16) : a ^^^ ((a &&& 255) <<< 5) < 2 ^ 16 := by
  have h1 : a &&& 255 ≤ 255 := Nat.and_le_right
  have h2 : (a &&& 255) <<< 5 = (a &&& 255) * 32 := by
    rw [Nat.shiftLeft_eq]
  exact Nat.xor_lt_two_pow ha (by omega)

lemma checksum_step_lt (i x : Nat) (hi : i < 2 ^ 16) (hx : x < 2 ^ 16) :
    checksum_step i x < 2 ^ 16 := by
  unfold checksum_step
  exact csum_b4 _ (csum_b3 _ (csum_b2 _ (csum_b1 i x hi hx)))

lemma checksum_step_eq_spec (i x : Nat) (hi : i < 2 ^ 16) :
    checksum_step i x = checksum_spec_step i x := by
  unfold checksum_step checksum_spec_step
  have h : (i >>> 8) % 65536 = i >>> 8 :=
    Nat.mod_eq_of_lt (lt_of_le_of_lt (shiftRight_le_self i 8) (by omega))
  rw [h]

lemma foldl_checksum_step_eq (l : List Nat) :
    ∀ i : Nat, i < 2 ^ 16 → (∀ x ∈ l, x < 256) →
      l.foldl checksum_step i = l.foldl checksum_spec_step i := by
  induction l with
  | nil => intro i _ _; rfl
  | cons y ys ih =>
      intro i hi hl
      have hy : y < 256 := hl y (List.mem_cons_self y ys)
      rw [List.foldl_cons, List.foldl_cons, ← checksum_step_eq_spec i y hi]
      exact ih (checksum_step i y) (checksum_step_lt i y hi (by omega))
        (fun x hx => hl x (List.mem_cons_of_mem y hx))

/-- C1: for every body of length at most 252, `packetize body` succeeds and
returns exactly `[0x0D, body.length + 3] ++ body ++ checksum ([0x0D,
body.length + 3] ++ body)`: the preamble is not counted in the length byte
and the trailer is the checksum over preamble, length byte and body. -/
theorem packetize_frame (body : List Nat) (h : body.length ≤ 252) :
    packetize body =
      some ([0x0d, body.length + 3] ++ body ++ checksum ([0x0d, body.length + 3] ++ body)) := by
  unfold packetize
  rw [if_pos (by omega)]

/-- C1 witness: the Brew.Coffee body has length 12 ≤ 252 and packetizes to
the documented frame `0d 0f 83 f0 02 01 01 00 67 02 02 00 00 06 77 ff`. -/
theorem packetize_frame_witness :
    [0x83, 0xf0, 0x02, 0x01, 0x01, 0x00, 0x67, 0x02, 0x02, 0x00, 0x00, 0x06].length ≤ 252 ∧
    packetize [0x83, 0xf0, 0x02, 0x01, 0x01, 0x00, 0x67, 0x02, 0x02, 0x00, 0x00, 0x06] =
      some [0x0d, 0x0f, 0x83, 0xf0, 0x02, 0x01, 0x01, 0x00, 0x67, 0x02, 0x02, 0x00, 0x00, 0x06,
        0x77, 0xff] :=
  ⟨by decide,
    (packetize_frame [0x83, 0xf0, 0x02, 0x01, 0x01, 0x00, 0x67, 0x02, 0x02, 0x00, 0x00, 0x06]
      (by decide)).trans (by decide)⟩

/-- C2: `checksum` is the 16-bit rolling transform of the spec — it agrees
with the transform written from the spec's own words on every buffer of
bytes (values below 256, as every `u8` is) — and it maps the three
documented test vectors to `77 FF`, `C4 7E` and `55 12` respectively. -/
theorem checksum_rolling_transform :
    (∀ buffer : List Nat, (∀ x ∈ buffer, x < 256) →
        checksum buffer = checksum_spec buffer) ∧
    checksum [0x0d, 0x0f, 0x83, 0xf0, 0x02, 0x01, 0x01, 0x00, 0x67, 0x02, 0x02, 0x00, 0x00, 0x06] =
      [0x77, 0xff] ∧
    checksum [0x0d, 0x0d, 0x83, 0xf0, 0x05, 0x01, 0x01, 0x00, 0x78, 0x00, 0x00, 0x06] =
      [0xc4, 0x7e] ∧
    checksum [0x0d, 0x07, 0x84, 0x0f, 0x02, 0x01] = [0x55, 0x12] := by
  refine ⟨fun buffer hb => ?_, by decide, by decide, by decide⟩
  unfold checksum checksum_spec
  rw [foldl_checksum_step_eq buffer 7439 (by omega) hb]

/-- C2 witness: the third documented vector consists of bytes, so the
buffer-wise agreement with the spec transform applies to it. -/
theorem checksum_rolling_transform_witness :
    (∀ x ∈ [0x0d, 0x07, 0x84, 0x0f, 0x02, 0x01], x < 256) ∧
    checksum [0x0d, 0x07, 0x84, 0x0f, 0x02, 0x01] =
      checksum_spec [0x0d, 0x07, 0x84, 0x0f, 0x02, 0x01] :=
  ⟨by decide,
    checksum_rolling_transform.1 [0x0d, 0x07, 0x84, 0x0f, 0x02, 0x01] (by decide)⟩

/-- `MachineState` from `command.rs`. The source names the byte-7 variant
`Ready`; the ecam layer and the spec call the same state
`ReadyOrDispensing`. -/
inductive MachineState
  | StandBy
  | TurningOn
  | ShuttingDown
  | Descaling
  | SteamPreparation
  | Recovery
  | Ready
  | Rinsing
  | MilkPreparation
  | HotWaterDelivery
  | MilkCleaning
  | Unknown (b : Nat)
  deriving DecidableEq

/-- `MonitorState` from `command.rs`: machine state, progress, percentage,
two load bytes and the raw body slice. -/
structure MonitorState where
  state : MachineState
  progress : Nat
  percentage : Nat
  load0 : Nat
  load1 : Nat
  raw : List Nat
  deriving DecidableEq

/-- `MachineState::decode` from `command.rs`: the fixed byte-to-variant
table with `Unknown` fallthrough. -/
def MachineState.decode (data : Nat) : MachineState :=
  match data with
  | 0 => .StandBy
  | 1 => .TurningOn
  | 2 => .ShuttingDown
  | 4 => .Descaling
  | 5 => .SteamPreparation
  | 6 => .Recovery
  | 7 => .Ready
  | 8 => .Rinsing
  | 10 => .MilkPreparation
  | 11 => .HotWaterDelivery
  | 12 => .MilkCleaning
  | n => .Unknown n

/-- `MonitorState::decode` from `command.rs`. The source unconditionally
indexes `data[5]` through `data[9]`, panicking on shorter input; the
embedding returns `none` exactly on the panicking inputs. -/
def MonitorState.decode (data : List Nat) : Option MonitorState :=
  match data.get? 5, data.get? 6, data.get? 7, data.get? 8, data.get? 9 with
  | some s, some p, some pc, some l0, some l1 =>
      some ⟨MachineState.decode s, p, pc, l0, l1, data⟩
  | _, _, _, _, _ => none

/-- `Response` from `command.rs`: a typed `State` or an uninterpreted
`Raw` byte vector. -/
inductive Response
  | State (s : MonitorState)
  | Raw (bytes : List Nat)
  deriving DecidableEq

/-- `Response::decode` from `command.rs`. The source reads `data[0]`
(panicking on an empty body) and, when it is `0x75`, takes the slice
`data[2..]` (panicking when the body has fewer than 2 bytes) and feeds it
to `MonitorState::decode`; any other first byte yields `Raw` over the
whole body. `none` marks the panicking inputs. -/
def Response.decode (data : List Nat) : Option Response :=
  match data with
  | [] => none
  | b :: rest =>
      if b = 0x75 then
        match rest with
        | [] => none
        | _ :: tail => (MonitorState.decode tail).map Response.State
      else
        some (Response.Raw data)

/-- `MonitorRequestVersion` from `command.rs`. -/
inductive MonitorRequestVersion
  | V0
  | V1
  | V2

/-- `StateRequest` from `command.rs`. -/
inductive StateRequest
  | TurnOn

/-- `BrewRequest` from `command.rs`. -/
inductive BrewRequest
  | Coffee

/-- `ParameterId` from `command.rs`. -/
inductive ParameterId
  | WATER_HARDNESS

/-- `ParameterRequest` from `command.rs`. -/
inductive ParameterRequest
  | ReadParameter (id : ParameterId) (len : Nat)
  | WriteParameter (id : ParameterId)

/-- `Request` from `command.rs`. -/
inductive Request
  | Brew (r : BrewRequest)
  | Monitor (r : MonitorRequestVersion)
  | State (r : StateRequest)
  | Parameter (r : ParameterRequest)
  | Raw (r : List Nat)

/-- `BrewRequest::encode` from `command.rs`. -/
def BrewRequest.encode : BrewRequest → List Nat
  | .Coffee => [0x83, 0xf0, 0x02, 0x01, 0x01, 0x00, 0x67, 0x02, 0x02, 0x00, 0x00, 0x06]

/-- `MonitorRequestVersion::encode` from `command.rs`. -/
def MonitorRequestVersion.encode : MonitorRequestVersion → List Nat
  | .V0 => [0x60, 0x0f]
  | .V1 => [0x70, 0x0f]
  | .V2 => [0x75, 0x0f]

/-- `StateRequest::encode` from `command.rs`. -/
def StateRequest.encode : StateRequest → List Nat
  | .TurnOn => [0x84, 0x0f, 0x02, 0x01]

/-- `ParameterRequest::encode` from `command.rs` is `unimplemented!()` and
panics on every input; the embedding returns `none` everywhere. -/
def ParameterRequest.encode : ParameterRequest → Option (List Nat) :=
  fun _ => none

/-- `Request::encode` from `command.rs`: dispatch to the per-variant
encoders; `Raw` reproduces its bytes verbatim. -/
def Request.encode : Request → Option (List Nat)
  | .Brew r => some r.encode
  | .Monitor r => some r.encode
  | .State r => some r.encode
  | .Parameter r => r.encode
  | .Raw r => some r

lemma get?_eq_some_getD (l : List Nat) (i : Nat) (h : i < l.length) :
    l.get? i = some (l.getD i 0) := by
  simp [List.get?_eq_getElem?, List.getD_eq_getElem?_getD, List.getElem?_eq_getElem h]

/-- C3: a body whose first byte is `0x75` and whose length is at least 12
decodes to `Response.State` with the MonitorState fields drawn from bytes
5, 6, 7, 8 and 9 of the sub-slice `body[2..]`; a body with any other first
byte decodes to `Response.Raw` holding the body's bytes exactly. -/
theorem response_decode_dispatch (b1 : Nat) (rest : List Nat) (h : 10 ≤ rest.length) :
    Response.decode (0x75 :: b1 :: rest) =
      some (Response.State ⟨MachineState.decode (rest.getD 5 0), rest.getD 6 0,
        rest.getD 7 0, rest.getD 8 0, rest.getD 9 0, rest⟩) ∧
    ∀ (b : Nat) (r : List Nat), b ≠ 0x75 →
      Response.decode (b :: r) = some (Response.Raw (b :: r)) := by
  refine ⟨?_, fun b r hb => ?_⟩
  · have h5 := get?_eq_some_getD rest 5 (by omega)
    have h6 := get?_eq_some_getD rest 6 (by omega)
    have h7 := get?_eq_some_getD rest 7 (by omega)
    have h8 := get?_eq_some_getD rest 8 (by omega)
    have h9 := get?_eq_some_getD rest 9 (by omega)
    show (MonitorState.decode rest).map Response.State = _
    unfold MonitorState.decode
    rw [h5, h6, h7, h8, h9]
    rfl
  · simp [Response.decode, hb]

/-- C3 witness: a concrete 12-byte body led by `0x75` decodes to the
expected `Response.State`, with byte 5 of the sub-slice decoding to the
Ready state. -/
theorem response_decode_dispatch_witness :
    10 ≤ ([0, 0, 0, 0, 0, 7, 1, 2, 3, 4] : List Nat).length ∧
    Response.decode (0x75 :: 0x0f :: [0, 0, 0, 0, 0, 7, 1, 2, 3, 4]) =
      some (Response.State ⟨MachineState.Ready, 1, 2, 3, 4, [0, 0, 0, 0, 0, 7, 1, 2, 3, 4]⟩) :=
  ⟨by decide, by
    rw [(response_decode_dispatch 0x0f [0, 0, 0, 0, 0, 7, 1, 2, 3, 4] (by decide)).1]
    rfl⟩

/-- C5: every byte outside the decode table maps to `Unknown` of itself,
and the table bytes 0, 1, 2, 4, 5, 6, 7, 8, 10, 11, 12 map to the
documented variants in order (the source names the spec's
ReadyOrDispensing variant `Ready`). -/
theorem machineState_decode_table :
    (∀ b : Nat, b < 256 → b ∉ [0, 1, 2, 4, 5, 6, 7, 8, 10, 11, 12] →
        MachineState.decode b = MachineState.Unknown b) ∧
    MachineState.decode 0 = MachineState.StandBy ∧
    MachineState.decode 1 = MachineState.TurningOn ∧
    MachineState.decode 2 = MachineState.ShuttingDown ∧
    MachineState.decode 4 = MachineState.Descaling ∧
    MachineState.decode 5 = MachineState.SteamPreparation ∧
    MachineState.decode 6 = MachineState.Recovery ∧
    MachineState.decode 7 = MachineState.Ready ∧
    MachineState.decode 8 = MachineState.Rinsing ∧
    MachineState.decode 10 = MachineState.MilkPreparation ∧
    MachineState.decode 11 = MachineState.HotWaterDelivery ∧
    MachineState.decode 12 = MachineState.MilkCleaning := by
  set_option maxRecDepth 8192 in decide

/-- C5 witness: byte 3 is outside the table and decodes to `Unknown 3`. -/
theorem machineState_decode_table_witness :
    MachineState.decode 3 = MachineState.Unknown 3 :=
  machineState_decode_table.1 3 (by decide) (by decide)

/-- C6: `Request::encode` produces exactly the documented body bytes for
each fixed variant, and `Raw` encodes to its bytes verbatim. -/
theorem request_encode_fixed :
    Request.encode (.Brew .Coffee) =
      some [0x83, 0xf0, 0x02, 0x01, 0x01, 0x00, 0x67, 0x02, 0x02, 0x00, 0x00, 0x06] ∧
    Request.encode (.Monitor .V0) = some [0x60, 0x0f] ∧
    Request.encode (.Monitor .V1) = some [0x70, 0x0f] ∧
    Request.encode (.Monitor .V2) = some [0x75, 0x0f] ∧
    Request.encode (.State .TurnOn) = some [0x84, 0x0f, 0x02, 0x01] ∧
    ∀ r : List Nat, Request.encode (.Raw r) = some r :=
  ⟨rfl, rfl, rfl, rfl, rfl, fun _ => rfl⟩

/-- C10: response decoding is partial outside the spec's preconditions —
the empty body panics (embedded as `none`), and an 11-byte body led by
`0x75` panics because `MonitorState::decode` indexes bytes 5 through 9 of
`body[2..]`; under the hypothesis that a `0x75`-led body has length at
least 12, decoding succeeds. -/
theorem response_decode_partiality :
    Response.decode [] = none ∧
    (0x75 :: [0x0f, 0, 0, 0, 0, 0, 0, 0, 0, 0] : List Nat).length < 12 ∧
    Response.decode (0x75 :: [0x0f, 0, 0, 0, 0, 0, 0, 0, 0, 0]) = none ∧
    ∀ (b1 : Nat) (rest : List Nat), 10 ≤ rest.length →
      (Response.decode (0x75 :: b1 :: rest)).isSome = true := by
  refine ⟨rfl, by decide, by decide, fun b1 rest h => ?_⟩
  have h5 := get?_eq_some_getD rest 5 (by omega)
  have h6 := get?_eq_some_getD rest 6 (by omega)
  have h7 := get?_eq_some_getD rest 7 (by omega)
  have h8 := get?_eq_some_getD rest 8 (by omega)
  have h9 := get?_eq_some_getD rest 9 (by omega)
  show ((MonitorState.decode rest).map Response.State).isSome = true
  unfold MonitorState.decode
  rw [h5, h6, h7, h8, h9]
  rfl

/-- C10 witness: a 12-byte body led by `0x75` decodes successfully. -/
theorem response_decode_partiality_witness :
    10 ≤ ([0, 0, 0, 0, 0, 0, 0, 0, 0, 0] : List Nat).length ∧
    (Response.decode (0x75 :: 0 :: [0, 0, 0, 0, 0, 0, 0, 0, 0, 0])).isSome = true :=
  ⟨by decide, response_decode_partiality.2.2.2 0 [0, 0, 0, 0, 0, 0, 0, 0, 0, 0] (by decide)⟩

/-- `EcamStatus` from `ecam/ecam.rs`: the derived user-facing status. -/
inductive EcamStatus
  | Unknown
  | StandBy
  | Ready
  | Busy
  deriving DecidableEq

/-- `EcamStatus::extract` from `ecam/ecam.rs`: StandBy when the machine
state is StandBy, Ready when it is the ready-or-dispensing state with
progress 0, Busy otherwise. The machine-state enum it compares against
(`EcamMachineState` from the `hardware_enums` module, whose source is not
under `src/`) is represented by `MachineState` from `command.rs`, whose
`Ready` constructor is that module's and the spec's `ReadyOrDispensing`. -/
def EcamStatus.extract (state : MonitorState) : EcamStatus :=
  if state.state = MachineState.StandBy then .StandBy
  else if state.state = MachineState.Ready ∧ state.progress = 0 then .Ready
  else .Busy

/-- `EcamStatus::matches` from `ecam/ecam.rs`: a status matches a monitor
state when it equals the extracted status. -/
def EcamStatus.matchesState (self : EcamStatus) (state : MonitorState) : Bool :=
  self == EcamStatus.extract state

/-- `EcamError` from `ecam/mod.rs`: NotFound, BTError (wrapping a BLE
cause), IOError (wrapping an I/O cause) and Unknown. The wrapped causes
have no bearing on the claims and are elided. -/
inductive EcamError
  | NotFound
  | BTError
  | IOError
  | Unknown
  deriving DecidableEq

/-- Modelled from the spec: §7 classifies the error kinds surfaced at the
core boundary; the transport kind is a BLE-layer error or an I/O failure
on the subprocess pipe, i.e. `BTError` or `IOError`. -/
def EcamError.isTransport : EcamError → Bool
  | .BTError => true
  | .IOError => true
  | _ => false

/-- Modelled from the spec: `DriverOutput` (§4.D), named `EcamOutput` in
the source, whose defining module is not under `src/`: a `Ready`
handshake, a `Done` end-of-stream, or an inbound packet carrying an
optional typed representation, matching the patterns the pump in
`ecam/ecam.rs` uses. -/
inductive EcamOutput
  | Ready
  | Done
  | Packet (representation : Option Response) (bytes : List Nat)
  deriving DecidableEq

/-- Whether a driver output is a packet carrying a typed `State`
response — the only events that publish to `last_status` and release the
ready-gate in the pump of `Ecam::new` (`ecam/ecam.rs`). -/
def isStateEvent : EcamOutput → Bool
  | .Packet (some (Response.State _)) _ => true
  | _ => false

/-- The value of the `last_status` watch cell after the inbound pump of
`Ecam::new` (`ecam/ecam.rs`) processes a sequence of driver outputs: a
packet with a typed `State` representation publishes its state, `Done`
ends the loop, every other output leaves the cell unchanged. -/
def pump_last_status : List EcamOutput → Option MonitorState → Option MonitorState
  | [], last => last
  | e :: rest, last =>
      match e with
      | .Done => last
      | .Packet (some (Response.State s)) _ => pump_last_status rest (some s)
      | _ => pump_last_status rest last

/-- `Ecam::current_state` from `ecam/ecam.rs`, observed once the
ready-gate acquires (the single permit is dropped on the first `State`
response, or when the pump task ends): project the `last_status` snapshot
to a Status, or report `EcamError::Unknown` when no `State` was ever
observed. -/
def current_state (events : List EcamOutput) : Except EcamError EcamStatus :=
  match pump_last_status events none with
  | some s => .ok (EcamStatus.extract s)
  | none => .error .Unknown

/-- The observable action of one iteration of `Ecam::write_monitor_loop`
(`ecam/ecam.rs`): exit when `alive` is false; sleep 100 ms and loop when
the status-interest count is 0; otherwise attempt `driver.write` of the
encoded MonitorV2 request. -/
inductive MonitorLoopAction
  | exitLoop
  | sleep100
  | writeStatusRequest (bytes : Option (List Nat))
  deriving DecidableEq

/-- One iteration of `Ecam::write_monitor_loop` from `ecam/ecam.rs`,
mapped to its observable action. -/
def write_monitor_iteration (alive : Bool) (interest : Nat) : MonitorLoopAction :=
  if alive = false then .exitLoop
  else if interest = 0 then .sleep100
  else .writeStatusRequest (Request.encode (.Monitor .V2))

/-- Whether a `last_status` value matches the target status of a
`wait_for_state` call: a `none` cell never matches. -/
def matchesOpt (target : EcamStatus) : Option MonitorState → Bool
  | some s => EcamStatus.matchesState target s
  | none => false

/-- `Ecam::wait_for_state` from `ecam/ecam.rs`, as a function of the
successive values the `last_status` receiver observes: each iteration
borrows the current value and returns `Ok` when it projects to the
target; when the change notification fails (the watch sender is gone —
here, the list of observable values is exhausted) it returns
`EcamError::Unknown`. The source applies no wall-clock timeout (the loop
is marked `TODO: timeout`). -/
def wait_for_state (target : EcamStatus) : List (Option MonitorState) → Except EcamError Unit
  | [] => .error .Unknown
  | v :: rest =>
      if matchesOpt target v then .ok () else wait_for_state target rest

/-- C4: the projection from MonitorState to the user-facing Status:
StandBy exactly when the machine state is StandBy; Ready exactly when the
machine state is the ReadyOrDispensing variant (named `Ready` in
`command.rs`) and progress is 0; Busy in every other case. -/
theorem ecamStatus_extract_projection (s : MonitorState) :
    (EcamStatus.extract s = EcamStatus.StandBy ↔ s.state = MachineState.StandBy) ∧
    (EcamStatus.extract s = EcamStatus.Ready ↔
      (s.state = MachineState.Ready ∧ s.progress = 0)) ∧
    (s.state ≠ MachineState.StandBy → ¬(s.state = MachineState.Ready ∧ s.progress = 0) →
      EcamStatus.extract s = EcamStatus.Busy) := by
  by_cases h1 : s.state = MachineState.StandBy
  · have he : EcamStatus.extract s = EcamStatus.StandBy := by
      unfold EcamStatus.extract
      rw [if_pos h1]
    refine ⟨⟨fun _ => h1, fun _ => he⟩, ⟨fun hr => ?_, fun hr => ?_⟩, fun hn _ => absurd h1 hn⟩
    · rw [he] at hr
      exact absurd hr (by decide)
    · rw [h1] at hr
      exact absurd hr.1 (by decide)
  · by_cases h2 : s.state = MachineState.Ready ∧ s.progress = 0
    · have he : EcamStatus.extract s = EcamStatus.Ready := by
        unfold EcamStatus.extract
        rw [if_neg h1, if_pos h2]
      refine ⟨⟨fun hr => ?_, fun hr => absurd hr h1⟩, ⟨fun _ => h2, fun _ => he⟩,
        fun _ hn => absurd h2 hn⟩
      rw [he] at hr
      exact absurd hr (by decide)
    · have he : EcamStatus.extract s = EcamStatus.Busy := by
        unfold EcamStatus.extract
        rw [if_neg h1, if_neg h2]
      refine ⟨⟨fun hr => ?_, fun hr => absurd hr h1⟩, ⟨fun hr => ?_, fun hr => absurd hr h2⟩,
        fun _ _ => he⟩
      · rw [he] at hr
        exact absurd hr (by decide)
      · rw [he] at hr
        exact absurd hr (by decide)

/-- C4 witness: a monitor state that is neither StandBy nor Ready with
progress 0 projects to Busy. -/
theorem ecamStatus_extract_projection_witness :
    (MonitorState.mk MachineState.TurningOn 1 0 0 0 []).state ≠ MachineState.StandBy ∧
    EcamStatus.extract ⟨MachineState.TurningOn, 1, 0, 0, 0, []⟩ = EcamStatus.Busy :=
  ⟨by decide,
    (ecamStatus_extract_projection ⟨MachineState.TurningOn, 1, 0, 0, 0, []⟩).2.2
      (by decide) (by decide)⟩

lemma pump_last_status_none (events : List EcamOutput) :
    (∀ e ∈ events, isStateEvent e = false) → pump_last_status events none = none := by
  induction events with
  | nil => intro _; rfl
  | cons e rest ih =>
      intro h
      have he := h e (List.mem_cons_self e rest)
      have hrest : ∀ x ∈ rest, isStateEvent x = false :=
        fun x hx => h x (List.mem_cons_of_mem e hx)
      cases e with
      | Ready => exact ih hrest
      | Done => rfl
      | Packet rep bs =>
          cases rep with
          | none => exact ih hrest
          | some r =>
              cases r with
              | State s => simp [isStateEvent] at he
              | Raw b => exact ih hrest

/-- C7: `current_state` yields a Status only once a typed `State` response
has been observed by the inbound pump; when the driver closes before any
`State` response was observed, it returns the Unknown-kind error. -/
theorem current_state_ready_gate (events : List EcamOutput) :
    ((∀ e ∈ events, isStateEvent e = false) →
      current_state events = Except.error EcamError.Unknown) ∧
    (∀ st : EcamStatus, current_state events = Except.ok st →
      ∃ e ∈ events, isStateEvent e = true) := by
  constructor
  · intro h
    unfold current_state
    rw [pump_last_status_none events h]
  · intro st hok
    by_contra hc
    push_neg at hc
    have h : ∀ e ∈ events, isStateEvent e = false := by
      intro e he
      simpa using hc e he
    unfold current_state at hok
    rw [pump_last_status_none events h] at hok
    exact Except.noConfusion hok

/-- C7 witness: a driver that reports Ready and then closes without any
`State` response makes `current_state` return the Unknown-kind error. -/
theorem current_state_ready_gate_witness :
    (∀ e ∈ [EcamOutput.Ready, EcamOutput.Done], isStateEvent e = false) ∧
    current_state [EcamOutput.Ready, EcamOutput.Done] = Except.error EcamError.Unknown :=
  ⟨by decide, (current_state_ready_gate [EcamOutput.Ready, EcamOutput.Done]).1 (by decide)⟩

/-- C8: the monitor-polling loop never writes while the status-interest
counter is 0 — a write action is only produced when the counter is
positive, an alive iteration at counter 0 only sleeps 100 ms, and an
alive iteration at a positive counter attempts the MonitorV2 write. -/
theorem monitor_loop_gating :
    (∀ (a : Bool) (c : Nat) (bs : Option (List Nat)),
      write_monitor_iteration a c = MonitorLoopAction.writeStatusRequest bs → 0 < c) ∧
    write_monitor_iteration true 0 = MonitorLoopAction.sleep100 ∧
    (∀ c : Nat, 0 < c →
      write_monitor_iteration true c =
        MonitorLoopAction.writeStatusRequest (Request.encode (.Monitor .V2))) := by
  refine ⟨fun a c bs hw => ?_, rfl, fun c hc => ?_⟩
  · by_contra hzero
    have hc0 : c = 0 := by omega
    subst hc0
    cases a <;> simp [write_monitor_iteration] at hw
  · unfold write_monitor_iteration
    rw [if_neg (by decide), if_neg (by omega)]

/-- C8 witness: an alive iteration with one interested observer writes the
MonitorV2 request body `75 0f`. -/
theorem monitor_loop_gating_witness :
    write_monitor_iteration true 1 =
      MonitorLoopAction.writeStatusRequest (some [0x75, 0x0f]) :=
  monitor_loop_gating.2.2 1 (by decide)

/-- C9 counterexample: with target Ready and a session that dies before
any matching value (the change-notification channel fails immediately),
`wait_for_state` returns `EcamError::Unknown`, which is not of the
transport kind under the spec's §7 classification — refuting the claim
that the error is transport-kind. -/
theorem wait_for_state_error_not_transport :
    wait_for_state EcamStatus.Ready [] = Except.error EcamError.Unknown ∧
    EcamError.isTransport EcamError.Unknown = false :=
  ⟨rfl, rfl⟩

/-- C9 (amended): if the session dies before the target is reached — no
observed `last_status` value matches the target before the
change-notification channel fails — `wait_for_state` returns the
Unknown-kind error, and it applies no wall-clock timeout of its own. -/
theorem wait_for_state_unknown_on_channel_failure (target : EcamStatus)
    (obs : List (Option MonitorState)) (h : ∀ v ∈ obs, matchesOpt target v = false) :
    wait_for_state target obs = Except.error EcamError.Unknown := by
  induction obs with
  | nil => rfl
  | cons v rest ih =>
      have hv := h v (List.mem_cons_self v rest)
      have hrest : ∀ x ∈ rest, matchesOpt target x = false :=
        fun x hx => h x (List.mem_cons_of_mem v hx)
      unfold wait_for_state
      rw [hv]
      exact ih hrest

/-- C9 witness: a session observing a single StandBy state and then dying
makes `wait_for_state Ready` return the Unknown-kind error. -/
theorem wait_for_state_unknown_on_channel_failure_witness :
    (∀ v ∈ [some (MonitorState.mk MachineState.StandBy 0 0 0 0 [])],
      matchesOpt EcamStatus.Ready v = false) ∧
    wait_for_state EcamStatus.Ready [some ⟨MachineState.StandBy, 0, 0, 0, 0, []⟩] =
      Except.error EcamError.Unknown :=
  ⟨by decide,
    wait_for_state_unknown_on_channel_failure EcamStatus.Ready
      [some ⟨MachineState.StandBy, 0, 0, 0, 0, []⟩] (by decide)⟩
